import Mathlib

/-!
# Verification of the transfer extractor of `coral-agent`

Shallow embedding of `extractRelevantTxData` (src/src/index.ts, lines 268-354)
together with its account-key resolution block (lines 290-299), over a data
model of the `VersionedTransactionResponse` records the function consumes.

Embedding conventions:
* Ledger addresses (`PublicKey` values) are represented by their base58
  strings, so `key.toBase58() === walletAddress` becomes string equality.
* JavaScript `null` and `undefined` are both `Option.none`, except where the
  source distinguishes them (`preBalance !== null` is true for `undefined`):
  there the three-valued `JsVal` is used.
* JavaScript numbers are embedded as exact rationals (IEEE-754 rounding is
  abstracted away); `NaN` is the explicit `JsNumber.nan`. Raw token amounts
  are decimal integer strings in the source and are embedded by their integer
  value, with `none` standing for a missing field (the `|| "0"` default).
* `Date.prototype.toISOString` belongs to the host library; the extractor is
  parametrized by the conversion function `iso` from a milliseconds-since-epoch
  value to its ISO-8601 string.
* Fields of the input record that the extractor never reads are omitted from
  the model, except `meta.loadedAddresses`, which is kept to express that the
  computation of `sender`/`receiver` never consults metadata.
* `getAccountKeys` can raise in the source; computations that can raise are
  typed in `Except String`.
-/

namespace CoralAgent

/-- JavaScript three-valued optional: distinguishes `null` from `undefined`. -/
inductive JsVal (α : Type) where
  | null : JsVal α
  | undefined : JsVal α
  | val : α → JsVal α
deriving DecidableEq

/-- A JavaScript number: `NaN` or an exact rational. -/
inductive JsNumber where
  | nan : JsNumber
  | num : ℚ → JsNumber
deriving DecidableEq

/-- The `uiTokenAmount` sub-record of a token balance. `amount` is the raw
amount string by its integer value (`none` = missing or empty, which the
source defaults via `|| "0"`); `decimals` is `none` when absent. -/
structure UiTokenAmount where
  amount : Option ℤ
  decimals : Option ℕ
deriving DecidableEq

/-- One entry of `meta.preTokenBalances` / `meta.postTokenBalances`. -/
structure TokenBalance where
  owner : Option String
  mint : String
  uiTokenAmount : Option UiTokenAmount
deriving DecidableEq

/-- `meta.loadedAddresses`: lookup-table addresses resolved by the RPC node.
The extractor never reads this field. -/
structure LoadedAddresses where
  writable : List String
  readonly : List String
deriving DecidableEq

/-- The `meta` field of a `VersionedTransactionResponse` (the parts the
extractor touches, plus `loadedAddresses`). Every field may be absent. -/
structure TransactionMeta where
  preBalances : Option (List ℤ)
  postBalances : Option (List ℤ)
  preTokenBalances : Option (List TokenBalance)
  postTokenBalances : Option (List TokenBalance)
  loadedAddresses : Option LoadedAddresses
deriving DecidableEq

/-- An address-table lookup carried by a versioned message. -/
structure AddressTableLookup where
  accountKey : String
deriving DecidableEq

/-- A compiled instruction: its ordered referenced-account indices
(`accountKeyIndexes`), possibly absent. -/
structure CompiledInstruction where
  accountKeyIndexes : Option (List ℕ)
deriving DecidableEq

/-- A transaction message: statically-embedded keys, address-table lookups,
and compiled instructions. -/
structure Message where
  staticAccountKeys : List String
  addressTableLookups : List AddressTableLookup
  compiledInstructions : Option (List CompiledInstruction)
deriving DecidableEq

/-- Modelled from the spec: `VersionedMessage.getAccountKeys()` of the ledger
SDK (an external dependency, not part of this repository). Per spec §4.1,
full resolution requires every address-lookup-table reference to be already
resolved; invoked without loaded lookup addresses, as at line 293, it raises
whenever the message carries any table lookups, and otherwise returns the
statically-embedded keys. -/
def Message.getAccountKeys (m : Message) : Except String (List String) :=
  if m.addressTableLookups.isEmpty then .ok m.staticAccountKeys
  else .error "Failed to get account keys because address table lookups were not resolved"

/-- The `transaction` field of a `VersionedTransactionResponse`. -/
structure TransactionInner where
  signatures : List String
  message : Option Message
deriving DecidableEq

/-- A `VersionedTransactionResponse` record. -/
structure Tx where
  slot : ℤ
  blockTime : Option ℤ
  transaction : TransactionInner
  meta : Option TransactionMeta
deriving DecidableEq

/-- The record returned by the extractor (lines 344-353). -/
structure TransferSummary where
  signature : Option String
  solscanUrl : String
  date : Option String
  sender : Option String
  receiver : Option String
  amount : Option JsNumber
  tokenMint : Option String
  slot : ℤ
deriving DecidableEq

/-- Lines 292-293: `transaction.message?.getAccountKeys() || new
MessageAccountKeys([])`. A missing message short-circuits (`undefined` is
falsy) to the empty key list; otherwise the call may raise. -/
def accountKeysFull (t : TransactionInner) : Except String (List String) :=
  match t.message with
  | none => .ok []
  | some m => m.getAccountKeys

/-- Lines 296-298: `new MessageAccountKeys(transaction.message?.staticAccountKeys
|| [])`, the value assigned in the catch block. -/
def staticFallback (t : TransactionInner) : List String :=
  match t.message with
  | none => []
  | some m => m.staticAccountKeys

/-- JavaScript `try`/`catch` around a computation that can raise. -/
def tryCatch (x : Except String α) (h : String → Except String α) :
    Except String α :=
  match x with
  | .ok a => .ok a
  | .error e => h e

/-- Lines 290-299: resolve the account keys, falling back to the
statically-embedded list when full resolution raises. -/
def resolveAccountKeys (t : TransactionInner) : Except String (List String) :=
  tryCatch (accountKeysFull t) (fun _ => .ok (staticFallback t))

/-- The list `resolveAccountKeys` delivers (its error branch is dead, see
`resolveAccountKeys_ok`). -/
def resolvedKeys (t : TransactionInner) : List String :=
  match resolveAccountKeys t with
  | .ok ks => ks
  | .error _ => []

/-- Lines 279-288: the first entry of each token-balance list whose `owner`
is the wallet address, provided `meta` and both lists are present. -/
def matchedTokenBalances (meta : Option TransactionMeta) (walletAddress : String) :
    Option TokenBalance × Option TokenBalance :=
  match meta with
  | some m =>
    match m.preTokenBalances, m.postTokenBalances with
    | some pres, some posts =>
        (pres.find? (fun b => b.owner == some walletAddress),
         posts.find? (fun b => b.owner == some walletAddress))
    | _, _ => (none, none)
  | none => (none, none)

/-- JavaScript array subscript: out of bounds yields `undefined`. -/
def jsIndex (l : List ℤ) (i : ℕ) : JsVal ℤ :=
  match l.get? i with
  | some v => .val v
  | none => .undefined

/-- Lines 301-316: the native pre/post balances at the first index of the
resolved key list holding the wallet address; `null` when `meta` is absent,
the address is not found, or either balance array is absent. -/
def nativeBalances (meta : Option TransactionMeta) (walletAddress : String)
    (accountKeys : List String) : JsVal ℤ × JsVal ℤ :=
  match meta with
  | none => (.null, .null)
  | some m =>
    match accountKeys.findIdx? (fun k => k == walletAddress),
          m.preBalances, m.postBalances with
    | some i, some pres, some posts => (jsIndex pres i, jsIndex posts i)
    | _, _, _ => (.null, .null)

/-- Lines 318-321: `sender = accountKeys.get(0)`, guarded by the presence of
`transaction.message`. -/
def senderOf (t : TransactionInner) (accountKeys : List String) : Option String :=
  match t.message with
  | none => none
  | some _ => accountKeys.get? 0

/-- The loop of lines 323-328: the referenced-account indices of the first
compiled instruction whose `accountKeyIndexes` is present with length > 1. -/
def firstMultiAccountIx (ixs : List CompiledInstruction) : Option (List ℕ) :=
  ixs.findSome? fun ix =>
    match ix.accountKeyIndexes with
    | some idxs => if 1 < idxs.length then some idxs else none
    | none => none

/-- Lines 319-328: `receiver = accountKeys.get(ix.accountKeyIndexes[1])` for
the first multi-account instruction, guarded by the presence of
`transaction.message` (`compiledInstructions || []` defaults to the empty
list). -/
def receiverOf (t : TransactionInner) (accountKeys : List String) : Option String :=
  match t.message with
  | none => none
  | some m =>
    match firstMultiAccountIx (m.compiledInstructions.getD []) with
    | none => none
    | some idxs => (idxs.get? 1).bind fun i => accountKeys.get? i

/-- Line 334/335: `Number(tb.uiTokenAmount?.amount || "0")`. -/
def rawTokenAmount (tb : TokenBalance) : ℤ :=
  (tb.uiTokenAmount.bind (fun u => u.amount)).getD 0

/-- Line 337: `preTokenBalance.uiTokenAmount?.decimals || 0`. -/
def tokenDecimals (tb : TokenBalance) : ℕ :=
  (tb.uiTokenAmount.bind (fun u => u.decimals)).getD 0

/-- Line 340: `(postBalance - preBalance) / 1e9` with JavaScript semantics:
an `undefined` operand makes the result `NaN`. -/
def nativeAmount (pre post : JsVal ℤ) : JsNumber :=
  match pre, post with
  | .val a, .val b => .num ((b - a : ℚ) / 10 ^ 9)
  | _, _ => .nan

/-- Lines 339-342: the native-balance branch, taken when
`preBalance !== null && postBalance !== null`. -/
def nativeAmountAndMint (p : JsVal ℤ × JsVal ℤ) : Option JsNumber × Option String :=
  if p.1 ≠ JsVal.null ∧ p.2 ≠ JsVal.null then
    (some (nativeAmount p.1 p.2), some "SOL")
  else (none, none)

/-- Lines 331-342: `amount` and `tokenMint`. The token-balance branch is
taken whenever both matched token-balance entries are truthy; otherwise the
native branch is tried. -/
def amountAndMint (meta : Option TransactionMeta) (walletAddress : String)
    (accountKeys : List String) : Option JsNumber × Option String :=
  match matchedTokenBalances meta walletAddress with
  | (some preTB, some postTB) =>
      (some (.num ((rawTokenAmount postTB - rawTokenAmount preTB : ℚ) /
          10 ^ tokenDecimals preTB)),
       some preTB.mint)
  | _ => nativeAmountAndMint (nativeBalances meta walletAddress accountKeys)

/-- Line 277: `blockTime ? new Date(blockTime * 1000).toISOString() : null`.
JavaScript truthiness makes `blockTime = 0` take the `null` branch. -/
def dateOf (iso : ℤ → String) (blockTime : Option ℤ) : Option String :=
  match blockTime with
  | some t => if t = 0 then none else some (iso (t * 1000))
  | none => none

/-- Lines 274-353 minus the resolution block: the summary built from a
transaction record and an already-resolved account-key list. A missing first
signature renders as the string `"undefined"` in the template literal of
line 276. -/
def buildSummary (iso : ℤ → String) (tx : Tx) (walletAddress : String)
    (accountKeys : List String) : TransferSummary :=
  { signature := tx.transaction.signatures.head?
    solscanUrl := "https://solscan.io/tx/" ++ tx.transaction.signatures.head?.getD "undefined"
    date := dateOf iso tx.blockTime
    sender := senderOf tx.transaction accountKeys
    receiver := receiverOf tx.transaction accountKeys
    amount := (amountAndMint tx.meta walletAddress accountKeys).1
    tokenMint := (amountAndMint tx.meta walletAddress accountKeys).2
    slot := tx.slot }

/-- Lines 268-354: `extractRelevantTxData`. The result is typed in
`Except String` because the account-key resolution it performs can raise;
every other step is a pure total computation, so it is hoisted into
`buildSummary` unchanged. -/
def extractRelevantTxData (iso : ℤ → String) (tx : Option Tx)
    (walletAddress : String) : Except String (Option TransferSummary) :=
  match tx with
  | none => .ok none
  | some tx =>
      (resolveAccountKeys tx.transaction).bind fun accountKeys =>
        .ok (some (buildSummary iso tx walletAddress accountKeys))

/-- The value `extractRelevantTxData` returns; its only raise-site is caught
internally, so the error branch here is dead (see the totality theorem). -/
def extract (iso : ℤ → String) (tx : Option Tx) (walletAddress : String) :
    Option TransferSummary :=
  match extractRelevantTxData iso tx walletAddress with
  | .ok r => r
  | .error _ => none

/-- Boolean form of the loop guard of line 324:
`ix.accountKeyIndexes && ix.accountKeyIndexes.length > 1`. -/
def isMultiAccount (ix : CompiledInstruction) : Bool :=
  match ix.accountKeyIndexes with
  | some idxs => 1 < idxs.length
  | none => false

/-! ### Concrete records used by the example theorems below -/

/-- A message with two statically-embedded keys and no table lookups. -/
def exTokenMsg : Message :=
  { staticAccountKeys := ["payer", "owner1"], addressTableLookups := [],
    compiledInstructions := some [] }

/-- Pre-token balance of the spec's scaling example: raw amount 1000000,
6 decimals. -/
def exPreTB : TokenBalance :=
  { owner := some "owner1", mint := "MINT",
    uiTokenAmount := some { amount := some 1000000, decimals := some 6 } }

/-- Post-token balance of the spec's scaling example: raw amount 1500000. -/
def exPostTB : TokenBalance :=
  { owner := some "owner1", mint := "MINT",
    uiTokenAmount := some { amount := some 1500000, decimals := some 6 } }

/-- Metadata where both the token-balance path and the native path resolve. -/
def exTokenMeta : TransactionMeta :=
  { preBalances := some [10, 20], postBalances := some [11, 19],
    preTokenBalances := some [exPreTB], postTokenBalances := some [exPostTB],
    loadedAddresses := none }

def exTokenTx : Tx :=
  { slot := 7, blockTime := some 100,
    transaction := { signatures := ["sigT"], message := some exTokenMsg },
    meta := some exTokenMeta }

/-- The spec's sign-preservation example: native balance drops from
5000000000 to 4000000000. -/
def exNativeMeta : TransactionMeta :=
  { preBalances := some [5000000000], postBalances := some [4000000000],
    preTokenBalances := none, postTokenBalances := none,
    loadedAddresses := none }

def exNativeMsg : Message :=
  { staticAccountKeys := ["wallet2"], addressTableLookups := [],
    compiledInstructions := some [] }

def exNativeTx : Tx :=
  { slot := 3, blockTime := some 50,
    transaction := { signatures := ["sigN"], message := some exNativeMsg },
    meta := some exNativeMeta }

/-- A message whose full resolution raises: it carries a table lookup. -/
def exLookupMsg : Message :=
  { staticAccountKeys := ["a1", "a2"],
    addressTableLookups := [{ accountKey := "tbl" }],
    compiledInstructions := none }

def exLookupTx : Tx :=
  { slot := 2, blockTime := some 9,
    transaction := { signatures := ["s3"], message := some exLookupMsg },
    meta := none }

/-- A single-account instruction (skipped by the receiver scan). -/
def exIx1 : CompiledInstruction := { accountKeyIndexes := some [3] }

/-- The spec's receiver example: the first multi-account instruction,
referencing indices 2, 5, 7. -/
def exIx2 : CompiledInstruction := { accountKeyIndexes := some [2, 5, 7] }

/-- A later multi-account instruction (ignored by the scan). -/
def exIx3 : CompiledInstruction := { accountKeyIndexes := some [0, 1] }

def exReceiverMsg : Message :=
  { staticAccountKeys := ["k0", "k1", "k2", "k3", "k4", "k5", "k6", "k7"],
    addressTableLookups := [],
    compiledInstructions := some [exIx1, exIx2, exIx3] }

def exReceiverTx : Tx :=
  { slot := 1, blockTime := none,
    transaction := { signatures := ["s6"], message := some exReceiverMsg },
    meta := none }

/-- A record whose `blockTime` is present with value 5. -/
def exDateTx : Tx :=
  { slot := 4, blockTime := some 5,
    transaction := { signatures := ["s8"], message := none },
    meta := none }

/-- A record whose `blockTime` is present but zero — falsy in JavaScript. -/
def exZeroTx : Tx :=
  { slot := 5, blockTime := some 0,
    transaction := { signatures := ["s0"], message := none },
    meta := none }

/-- A record with no metadata at all. -/
def exNoMetaTx : Tx :=
  { slot := 6, blockTime := some 11,
    transaction := { signatures := ["s9"], message := some exReceiverMsg },
    meta := none }

/-- Shared transaction body for the metadata-independence example. -/
def exInner10 : TransactionInner :=
  { signatures := ["s10"], message := some exReceiverMsg }

/-- Alternative metadata carrying resolved lookup-table addresses. -/
def exMeta10 : TransactionMeta :=
  { preBalances := none, postBalances := none,
    preTokenBalances := none, postTokenBalances := none,
    loadedAddresses := some { writable := ["L1"], readonly := ["L2"] } }

/-! ### Bridging lemmas -/

theorem resolveAccountKeys_ok (t : TransactionInner) :
    resolveAccountKeys t = .ok (resolvedKeys t) := by
  unfold resolvedKeys resolveAccountKeys tryCatch
  cases accountKeysFull t <;> rfl

theorem extract_some (iso : ℤ → String) (tx : Tx) (w : String) :
    extract iso (some tx) w =
      some (buildSummary iso tx w (resolvedKeys tx.transaction)) := by
  unfold extract extractRelevantTxData
  simp only [resolveAccountKeys_ok, Except.bind]

theorem firstMultiAccountIx_eq_none (l : List CompiledInstruction)
    (h : ∀ ix ∈ l, isMultiAccount ix = false) : firstMultiAccountIx l = none := by
  induction l with
  | nil => rfl
  | cons a l ih =>
    have ha := h a (List.mem_cons_self a l)
    have hl : ∀ ix ∈ l, isMultiAccount ix = false :=
      fun ix hx => h ix (List.mem_cons_of_mem a hx)
    unfold firstMultiAccountIx at ih ⊢
    rw [List.findSome?_cons]
    unfold isMultiAccount at ha
    cases hk : a.accountKeyIndexes with
    | none => simpa [hk] using ih hl
    | some idxs =>
      rw [hk] at ha
      simp only [hk]
      rw [if_neg (by simpa using ha)]
      exact ih hl

theorem firstMultiAccountIx_first (l₁ : List CompiledInstruction)
    (ix : CompiledInstruction) (l₂ : List CompiledInstruction) (idxs : List ℕ)
    (h₁ : ∀ j ∈ l₁, isMultiAccount j = false)
    (hix : ix.accountKeyIndexes = some idxs) (hlen : 1 < idxs.length) :
    firstMultiAccountIx (l₁ ++ ix :: l₂) = some idxs := by
  have h0 : firstMultiAccountIx l₁ = none := firstMultiAccountIx_eq_none l₁ h₁
  unfold firstMultiAccountIx at h0 ⊢
  rw [List.findSome?_append, h0, List.findSome?_cons]
  simp [hix, hlen]

/-! ### Claim theorems -/

/-- Claim C3: whenever full resolution of the addressing section raises, the
account-key resolver does not propagate the error but returns the
transaction's statically-embedded address list, and the extractor proceeds
with this degraded list. -/
theorem resolver_fallback (iso : ℤ → String) (tx : Tx) (w : String)
    (msg : Message) (e : String)
    (hm : tx.transaction.message = some msg)
    (he : msg.getAccountKeys = .error e) :
    resolveAccountKeys tx.transaction = .ok msg.staticAccountKeys ∧
    extract iso (some tx) w =
      some (buildSummary iso tx w msg.staticAccountKeys) := by
  have h1 : resolveAccountKeys tx.transaction = .ok msg.staticAccountKeys := by
    unfold resolveAccountKeys tryCatch accountKeysFull staticFallback
    simp only [hm, he]
  have h2 : resolvedKeys tx.transaction = msg.staticAccountKeys := by
    unfold resolvedKeys
    rw [h1]
  exact ⟨h1, by rw [extract_some, h2]⟩

/-- Claim C3 example: a message carrying an unresolved table lookup raises on
full resolution; the resolver falls back to the static keys and the extractor
proceeds with them. -/
theorem resolver_fallback_witness :
    resolveAccountKeys exLookupTx.transaction = .ok ["a1", "a2"] ∧
    extract toString (some exLookupTx) "a2" =
      some (buildSummary toString exLookupTx "a2" ["a1", "a2"]) :=
  resolver_fallback toString exLookupTx "a2" exLookupMsg
    "Failed to get account keys because address table lookups were not resolved"
    rfl rfl

/-- Claim C4: the extractor returns `null` exactly on an absent transaction;
on any transaction record it returns a populated summary, never `null`. -/
theorem extract_absent_and_present (iso : ℤ → String) (w : String) :
    extract iso none w = none ∧
    ∀ tx : Tx, (extract iso (some tx) w).isSome = true :=
  ⟨rfl, fun tx => by rw [extract_some]; rfl⟩

/-- Claim C5: the extractor is total — no error propagates out of
`extractRelevantTxData` for any input; its only raise-site (full account-key
resolution) is caught internally. -/
theorem extract_total (iso : ℤ → String) (tx : Option Tx) (w : String) :
    ∃ r, extractRelevantTxData iso tx w = .ok r := by
  cases tx with
  | none => exact ⟨none, rfl⟩
  | some t =>
    refine ⟨some (buildSummary iso t w (resolvedKeys t.transaction)), ?_⟩
    simp only [extractRelevantTxData, resolveAccountKeys_ok, Except.bind]

/-- Claim C7: the `sender` field of the summary is the address at index 0 of
the resolved address list, and is `null` when that list is empty. -/
theorem sender_first_resolved (iso : ℤ → String) (tx : Tx) (w : String)
    (s : TransferSummary)
    (hs : extract iso (some tx) w = some s) :
    s.sender = (resolvedKeys tx.transaction).get? 0 ∧
    (resolvedKeys tx.transaction = [] → s.sender = none) := by
  rw [extract_some] at hs
  injection hs with hs
  subst hs
  have hmain : (buildSummary iso tx w (resolvedKeys tx.transaction)).sender =
      (resolvedKeys tx.transaction).get? 0 := by
    show senderOf tx.transaction (resolvedKeys tx.transaction) =
      (resolvedKeys tx.transaction).get? 0
    unfold senderOf
    cases hm : tx.transaction.message with
    | some m => rfl
    | none =>
      have hnil : resolvedKeys tx.transaction = [] := by
        unfold resolvedKeys resolveAccountKeys tryCatch accountKeysFull
        simp only [hm]
      simp [hnil]
  exact ⟨hmain, fun hnil => by rw [hmain, hnil]; rfl⟩

/-- Claim C7 example: with resolved keys `["k0", …, "k7"]` the sender is
`"k0"`. -/
theorem sender_first_witness :
    ∃ s, extract toString (some exReceiverTx) "w7" = some s ∧
      s.sender = some "k0" := by
  have h := sender_first_resolved toString exReceiverTx "w7"
    (buildSummary toString exReceiverTx "w7" (resolvedKeys exReceiverTx.transaction))
    (extract_some toString exReceiverTx "w7")
  refine ⟨_, extract_some toString exReceiverTx "w7", ?_⟩
  rw [h.1]
  decide

/-- Claim C8 (amended): the `date` field is `null` when `blockTime` is absent
or equal to 0 (zero is falsy in the source's conditional); otherwise it is
the ISO-8601 rendering (`iso`) of `blockTime * 1000` milliseconds. -/
theorem date_null_iff (iso : ℤ → String) (tx : Tx) (w : String)
    (s : TransferSummary)
    (hs : extract iso (some tx) w = some s) :
    (s.date = none ↔ (tx.blockTime = none ∨ tx.blockTime = some 0)) ∧
    (∀ t : ℤ, tx.blockTime = some t → t ≠ 0 → s.date = some (iso (t * 1000))) := by
  rw [extract_some] at hs
  injection hs with hs
  subst hs
  have hdate : (buildSummary iso tx w (resolvedKeys tx.transaction)).date =
      dateOf iso tx.blockTime := rfl
  constructor
  · rw [hdate]
    unfold dateOf
    cases hb : tx.blockTime with
    | none => simp
    | some t =>
      by_cases ht : t = 0 <;> simp [ht]
  · intro t hbt htne
    rw [hdate]
    unfold dateOf
    simp [hbt, htne]

/-- Claim C8 example: `blockTime = 5` yields the ISO rendering of 5000 ms. -/
theorem date_null_iff_witness :
    ∃ s, extract toString (some exDateTx) "w8" = some s ∧
      s.date = some "5000" := by
  have h := date_null_iff toString exDateTx "w8"
    (buildSummary toString exDateTx "w8" (resolvedKeys exDateTx.transaction))
    (extract_some toString exDateTx "w8")
  refine ⟨_, extract_some toString exDateTx "w8", ?_⟩
  rw [h.2 5 rfl (by decide)]
  rfl

/-- Claim C8 counterexample: a record whose `blockTime` is present with value
0 still gets a `null` date, because 0 is falsy in the source's conditional —
so the date is not `null` exactly when `blockTime` is absent. -/
theorem date_truthiness_counterexample :
    exZeroTx.blockTime = some 0 ∧ exZeroTx.blockTime ≠ none ∧
    Option.map TransferSummary.date (extract toString (some exZeroTx) "w0") =
      some none :=
  ⟨rfl, by decide, rfl⟩

/-- Claim C9: with metadata entirely absent, `amount` and `tokenMint` are
`null`, while `signature`, `solscanUrl`, `slot` are still populated from the
transaction, and `date` is populated whenever `blockTime` is present and
nonzero. -/
theorem meta_absent_fields (iso : ℤ → String) (tx : Tx) (w : String)
    (s : TransferSummary)
    (hmeta : tx.meta = none)
    (hs : extract iso (some tx) w = some s) :
    s.amount = none ∧ s.tokenMint = none ∧
    s.signature = tx.transaction.signatures.head? ∧
    s.solscanUrl = "https://solscan.io/tx/" ++ tx.transaction.signatures.head?.getD "undefined" ∧
    s.slot = tx.slot ∧
    (∀ t : ℤ, tx.blockTime = some t → t ≠ 0 → s.date = some (iso (t * 1000))) := by
  rw [extract_some] at hs
  injection hs with hs
  subst hs
  refine ⟨?_, ?_, rfl, rfl, rfl, ?_⟩
  · show (amountAndMint tx.meta w (resolvedKeys tx.transaction)).1 = none
    simp [amountAndMint, matchedTokenBalances, nativeBalances,
      nativeAmountAndMint, hmeta]
  · show (amountAndMint tx.meta w (resolvedKeys tx.transaction)).2 = none
    simp [amountAndMint, matchedTokenBalances, nativeBalances,
      nativeAmountAndMint, hmeta]
  · intro t hbt htne
    show dateOf iso tx.blockTime = some (iso (t * 1000))
    unfold dateOf
    simp [hbt, htne]

/-- Claim C9 example: a record with no metadata still yields signature,
explorer URL, slot and date, with `amount` and `tokenMint` null. -/
theorem meta_absent_witness :
    ∃ s, extract toString (some exNoMetaTx) "w9" = some s ∧
      s.amount = none ∧ s.tokenMint = none ∧ s.signature = some "s9" ∧
      s.slot = 6 ∧ s.date = some "11000" := by
  obtain ⟨h1, h2, h3, _h4, h5, h6⟩ := meta_absent_fields toString exNoMetaTx "w9"
    (buildSummary toString exNoMetaTx "w9" (resolvedKeys exNoMetaTx.transaction))
    rfl (extract_some toString exNoMetaTx "w9")
  refine ⟨_, extract_some toString exNoMetaTx "w9", h1, h2, ?_, ?_, ?_⟩
  · rw [h3]; rfl
  · rw [h5]; rfl
  · rw [h6 11 rfl (by decide)]; rfl

/-- Claim C10: `sender` and `receiver` do not depend on the metadata — two
records identical except for their metadata (absent, present, or carrying
loaded lookup-table addresses) yield equal `sender` and `receiver` fields. -/
theorem sender_receiver_meta_independent (iso : ℤ → String) (w : String)
    (slot : ℤ) (bt : Option ℤ) (t : TransactionInner)
    (meta₁ meta₂ : Option TransactionMeta) (s₁ s₂ : TransferSummary)
    (h₁ : extract iso (some (Tx.mk slot bt t meta₁)) w = some s₁)
    (h₂ : extract iso (some (Tx.mk slot bt t meta₂)) w = some s₂) :
    s₁.sender = s₂.sender ∧ s₁.receiver = s₂.receiver := by
  rw [extract_some] at h₁ h₂
  injection h₁ with h₁
  injection h₂ with h₂
  subst h₁
  subst h₂
  exact ⟨rfl, rfl⟩

/-- Claim C10 example: metadata with token balances versus metadata carrying
only loaded lookup-table addresses leave `sender` and `receiver` unchanged. -/
theorem meta_independent_witness :
    ∃ s₁ s₂,
      extract toString (some (Tx.mk 9 (some 1) exInner10 (some exTokenMeta))) "w10" = some s₁ ∧
      extract toString (some (Tx.mk 9 (some 1) exInner10 (some exMeta10))) "w10" = some s₂ ∧
      s₁.sender = s₂.sender ∧ s₁.receiver = s₂.receiver := by
  obtain ⟨ha, hb⟩ := sender_receiver_meta_independent toString "w10" 9 (some 1)
    exInner10 (some exTokenMeta) (some exMeta10) _ _
    (extract_some toString (Tx.mk 9 (some 1) exInner10 (some exTokenMeta)) "w10")
    (extract_some toString (Tx.mk 9 (some 1) exInner10 (some exMeta10)) "w10")
  exact ⟨_, _,
    extract_some toString (Tx.mk 9 (some 1) exInner10 (some exTokenMeta)) "w10",
    extract_some toString (Tx.mk 9 (some 1) exInner10 (some exMeta10)) "w10",
    ha, hb⟩

/-- Claim C1: whenever both token-balance lists are present and each holds an
entry owned by the target address, the extractor takes the token path —
regardless of whether native balances also resolve — and sets
`amount = (postRaw - preRaw) / 10 ^ decimals`, raw amounts defaulting to 0
when the raw-amount field is missing and decimals defaulting to 0 when
absent, with `tokenMint` the mint of the matched pre-balance entry. -/
theorem tokenPath_amount_and_mint (iso : ℤ → String) (tx : Tx) (w : String)
    (m : TransactionMeta) (pres posts : List TokenBalance)
    (preTB postTB : TokenBalance)
    (hm : tx.meta = some m)
    (hpres : m.preTokenBalances = some pres)
    (hposts : m.postTokenBalances = some posts)
    (hpre : pres.find? (fun b => b.owner == some w) = some preTB)
    (hpost : posts.find? (fun b => b.owner == some w) = some postTB) :
    ∃ s, extract iso (some tx) w = some s ∧
      s.amount = some (JsNumber.num
        ((((postTB.uiTokenAmount.bind fun u => u.amount).getD 0 -
           (preTB.uiTokenAmount.bind fun u => u.amount).getD 0 : ℤ) : ℚ) /
         10 ^ ((preTB.uiTokenAmount.bind fun u => u.decimals).getD 0))) ∧
      s.tokenMint = some preTB.mint := by
  refine ⟨_, extract_some iso tx w, ?_, ?_⟩ <;>
    simp [buildSummary, amountAndMint, matchedTokenBalances, hm, hpres, hposts,
      hpre, hpost, rawTokenAmount, tokenDecimals]

/-- Claim C1 example, the spec's scaling case: raw amounts 1000000 and
1500000 with 6 decimals yield amount 1/2 and the pre-entry's mint — even
though native balances also resolve for the same address. -/
theorem tokenPath_witness :
    ∃ s, extract toString (some exTokenTx) "owner1" = some s ∧
      s.amount = some (JsNumber.num (1 / 2)) ∧
      s.tokenMint = some "MINT" := by
  obtain ⟨s, h1, h2, h3⟩ := tokenPath_amount_and_mint toString exTokenTx "owner1"
    exTokenMeta [exPreTB] [exPostTB] exPreTB exPostTB rfl rfl rfl
    (by decide) (by decide)
  refine ⟨s, h1, ?_, h3⟩
  rw [h2]
  simp only [Option.some.injEq, JsNumber.num.injEq, exPreTB, exPostTB]
  norm_num

/-- Claim C2: when the token path does not apply and both native balances at
the target address's index exist, the extractor sets
`amount = (postBalance - preBalance) / 10 ^ 9` — sign preserved — and
`tokenMint = "SOL"`. -/
theorem nativePath_amount_and_mint (iso : ℤ → String) (tx : Tx) (w : String)
    (a b : ℤ)
    (htok : (matchedTokenBalances tx.meta w).1 = none ∨
            (matchedTokenBalances tx.meta w).2 = none)
    (hpre : (nativeBalances tx.meta w (resolvedKeys tx.transaction)).1 = .val a)
    (hpost : (nativeBalances tx.meta w (resolvedKeys tx.transaction)).2 = .val b) :
    ∃ s, extract iso (some tx) w = some s ∧
      s.amount = some (JsNumber.num (((b - a : ℤ) : ℚ) / 10 ^ 9)) ∧
      s.tokenMint = some "SOL" := by
  have hkey : amountAndMint tx.meta w (resolvedKeys tx.transaction) =
      (some (JsNumber.num (((b - a : ℤ) : ℚ) / 10 ^ 9)), some "SOL") := by
    unfold amountAndMint
    rcases hmt : matchedTokenBalances tx.meta w with ⟨p, q⟩
    rw [hmt] at htok
    have hcatch :
        (match (p, q) with
          | (some preTB, some postTB) =>
              (some (JsNumber.num ((rawTokenAmount postTB - rawTokenAmount preTB : ℚ) /
                  10 ^ tokenDecimals preTB)),
               some preTB.mint)
          | _ => nativeAmountAndMint (nativeBalances tx.meta w (resolvedKeys tx.transaction))) =
        nativeAmountAndMint (nativeBalances tx.meta w (resolvedKeys tx.transaction)) := by
      rcases p with _ | p
      · rcases q with _ | q <;> rfl
      · rcases q with _ | q
        · rfl
        · rcases htok with htok | htok <;> simp at htok
    rw [hcatch]
    unfold nativeAmountAndMint
    rw [if_pos ⟨by rw [hpre]; simp, by rw [hpost]; simp⟩, hpre, hpost]
    unfold nativeAmount
    norm_num
  refine ⟨_, extract_some iso tx w, ?_, ?_⟩
  · show (amountAndMint tx.meta w (resolvedKeys tx.transaction)).1 = _
    rw [hkey]
  · show (amountAndMint tx.meta w (resolvedKeys tx.transaction)).2 = _
    rw [hkey]

/-- Claim C2 example, the spec's sign-preservation case: native balance drops
from 5000000000 to 4000000000, yielding amount -1 and `tokenMint = "SOL"`. -/
theorem nativePath_witness :
    ∃ s, extract toString (some exNativeTx) "wallet2" = some s ∧
      s.amount = some (JsNumber.num (-1)) ∧
      s.tokenMint = some "SOL" := by
  obtain ⟨s, h1, h2, h3⟩ := nativePath_amount_and_mint toString exNativeTx
    "wallet2" 5000000000 4000000000 (Or.inl (by decide)) (by decide) (by decide)
  refine ⟨s, h1, ?_, h3⟩
  rw [h2]
  simp only [Option.some.injEq, JsNumber.num.injEq]
  norm_num

/-- Claim C6: the `receiver` is the resolved address at the second
referenced-account position of the first instruction, in order, that
references at least two accounts; instructions after the first such one are
ignored, and when no instruction references at least two accounts the
receiver is `null`. -/
theorem receiver_heuristic (iso : ℤ → String) (tx : Tx) (w : String)
    (msg : Message) (s : TransferSummary)
    (hm : tx.transaction.message = some msg)
    (hs : extract iso (some tx) w = some s) :
    ((∀ ix ∈ msg.compiledInstructions.getD [], isMultiAccount ix = false) →
      s.receiver = none) ∧
    (∀ (l₁ : List CompiledInstruction) (ix : CompiledInstruction)
       (l₂ : List CompiledInstruction) (idxs : List ℕ) (i : ℕ),
      msg.compiledInstructions.getD [] = l₁ ++ ix :: l₂ →
      (∀ j ∈ l₁, isMultiAccount j = false) →
      ix.accountKeyIndexes = some idxs →
      idxs.get? 1 = some i →
      s.receiver = (resolvedKeys tx.transaction).get? i) := by
  rw [extract_some] at hs
  injection hs with hs
  subst hs
  constructor
  · intro hall
    show receiverOf tx.transaction (resolvedKeys tx.transaction) = none
    unfold receiverOf
    simp only [hm, firstMultiAccountIx_eq_none _ hall]
  · intro l₁ ix l₂ idxs i hsplit hprefix hix hi
    have hlen : 1 < idxs.length := by
      rcases List.get?_eq_some.mp hi with ⟨hl, _⟩
      exact hl
    show receiverOf tx.transaction (resolvedKeys tx.transaction) =
      (resolvedKeys tx.transaction).get? i
    unfold receiverOf
    simp only [hm, hsplit,
      firstMultiAccountIx_first l₁ ix l₂ idxs hprefix hix hlen, hi]
    rfl

/-- Claim C6 example, the spec's receiver case: the first multi-account
instruction references indices 2, 5, 7, so the receiver is the resolved
address at index 5 — the later multi-account instruction is ignored. -/
theorem receiver_heuristic_witness :
    extract toString (some exReceiverTx) "w6" =
      some (buildSummary toString exReceiverTx "w6" (resolvedKeys exReceiverTx.transaction)) ∧
    (buildSummary toString exReceiverTx "w6" (resolvedKeys exReceiverTx.transaction)).receiver =
      some "k5" := by
  have h := (receiver_heuristic toString exReceiverTx "w6" exReceiverMsg
      (buildSummary toString exReceiverTx "w6" (resolvedKeys exReceiverTx.transaction))
      rfl (extract_some toString exReceiverTx "w6")).2
    [exIx1] exIx2 [exIx3] [2, 5, 7] 5 rfl (by decide) rfl rfl
  exact ⟨extract_some toString exReceiverTx "w6", by rw [h]; decide⟩

end CoralAgent
